import Mathlib

/-!
# Verification of the Kno-It research/consensus engine

Shallow embedding of the TypeScript sources of the multi-backend research
orchestration and statistical consensus engine:

* `src/research/ResearchEngine.ts` — workflow selection, dispatch, fallback;
* `ConsensusEngine` — claim extraction, consensus, variance;
* `OutlierIsolator` — numerical and lexical outlier detection/classification.

Strings are modelled at the character-list level with hand-rolled, fully
executable analogues of the JavaScript string operations used by the source
(`split` on a regex character class, `trim`, `toLowerCase`,
`replace(/[^\w\s]/g,'')`, `match(/\d+\.?\d*/g)`, `includes`).  Numbers are
modelled by `ℚ` (the sources only ever produce decimal literals and perform
field arithmetic on them).  Fallible code is modelled with `Except String`.
-/

namespace KnoIt

/-! ## Character-level string utilities (JS semantics) -/

/-- ASCII whitespace, as matched by the JS `\s` class / `trim` on the ASCII
texts handled here. -/
def isWs (c : Char) : Bool :=
  c = ' ' ∨ c = '\t' ∨ c = '\n' ∨ c = '\r'

/-- Decimal digit, as matched by the JS `\d` class. -/
def isDigitCh (c : Char) : Bool :=
  '0' ≤ c ∧ c ≤ '9'

/-- JS `\w` word-character class: `[A-Za-z0-9_]`. -/
def isWordCh (c : Char) : Bool :=
  ('a' ≤ c ∧ c ≤ 'z') ∨ ('A' ≤ c ∧ c ≤ 'Z') ∨ isDigitCh c ∨ c = '_'

/-- ASCII lower-casing, the effect of JS `toLowerCase` on the ASCII texts
handled here. -/
def lowerCh (c : Char) : Char :=
  if 'A' ≤ c ∧ c ≤ 'Z' then Char.ofNat (c.toNat + 32) else c

def lowerStr (l : List Char) : List Char := l.map lowerCh

/-- JS `String.prototype.trim` (ASCII whitespace). -/
def trimStr (l : List Char) : List Char :=
  ((l.dropWhile isWs).reverse.dropWhile isWs).reverse

/-- Split at every single character satisfying `p`
(`"ab".split(p)`-style, keeping empty segments). -/
def splitCh (p : Char → Bool) : List Char → List (List Char)
  | [] => [[]]
  | c :: cs =>
    let r := splitCh p cs
    if p c then [] :: r
    else
      match r with
      | [] => [[c]]
      | s :: ss => (c :: s) :: ss

/-- Drop the empty segments that `splitCh` produces *between* two adjacent
delimiters, keeping a leading/trailing empty segment.  Composed with
`splitCh` this restores the JS semantics of splitting on the regex `p+`
(a maximal run of delimiter characters is a single separator). -/
def collapseRuns : List (List Char) → List (List Char)
  | [] => []
  | [x] => [x]
  | x :: xs => if x.isEmpty then collapseRuns xs else x :: collapseRuns xs

/-- JS `s.split(/p+/)` for a character class `p`. -/
def jsSplit (p : Char → Bool) (l : List Char) : List (List Char) :=
  match splitCh p l with
  | [] => []
  | first :: rest => first :: collapseRuns rest

/-- JS `a.includes(b)`: substring containment. -/
def containsSub (pat : List Char) : List Char → Bool
  | [] => pat.isEmpty
  | c :: cs => pat.isPrefixOf (c :: cs) || containsSub pat cs

/-- Does `f` hold of some suffix of the list? (used for unanchored regex
matching). -/
def anySuffix (f : List Char → Bool) : List Char → Bool
  | [] => f []
  | c :: cs => f (c :: cs) || anySuffix f cs

/-- Does the list start with `pat` immediately followed by four digits? -/
def patThenYear (pat : List Char) (l : List Char) : Bool :=
  pat.isPrefixOf l && ((l.drop pat.length).take 4).length = 4 &&
    ((l.drop pat.length).take 4).all isDigitCh

/-- The temporal-language test of `classifyOutlier`:
`/as of \d{4}|in \d{4}|back in|historically|used to be/i`. -/
def hasTemporalLanguage (text : String) : Bool :=
  let l := lowerStr text.data
  anySuffix (patThenYear "as of ".data) l ||
  anySuffix (patThenYear "in ".data) l ||
  containsSub "back in".data l ||
  containsSub "historically".data l ||
  containsSub "used to be".data l

/-! ## Number extraction (`text.match(/\d+\.?\d*/g)` + `parseFloat`) -/

/-- Longest digit prefix and the remainder. -/
def digitsPrefix : List Char → List Char × List Char
  | [] => ([], [])
  | c :: cs =>
    if isDigitCh c then
      let (d, r) := digitsPrefix cs
      (c :: d, r)
    else ([], c :: cs)

theorem digitsPrefix_len (l : List Char) : (digitsPrefix l).2.length ≤ l.length := by
  induction l with
  | nil => simp [digitsPrefix]
  | cons c cs ih =>
    simp only [digitsPrefix]
    split
    · simpa using Nat.le_succ_of_le ih
    · simp

/-- Numeric value of a digit string. -/
def natOfDigits (l : List Char) : ℕ :=
  l.foldl (fun n c => 10 * n + (c.toNat - 48)) 0

/-- Value of one regex match `\d+\.?\d*` split into its integer part and
(possibly empty) fractional part, as computed by `parseFloat`. -/
def ratOfParts (ip fp : List Char) : ℚ :=
  (natOfDigits ip : ℚ) + (natOfDigits fp : ℚ) / (10 : ℚ) ^ fp.length

/-- Fuel-driven scanner for all matches of `/\d+\.?\d*/g`;
`fuel ≥ length` suffices (each step consumes at least one character). -/
def scanNumbersF : ℕ → List Char → List ℚ
  | 0, _ => []
  | _ + 1, [] => []
  | fuel + 1, c :: cs =>
    if isDigitCh c then
      let (d1, r1) := digitsPrefix (c :: cs)
      match r1 with
      | '.' :: r2 =>
        let (d2, r3) := digitsPrefix r2
        ratOfParts d1 d2 :: scanNumbersF fuel r3
      | _ => ratOfParts d1 [] :: scanNumbersF fuel r1
    else scanNumbersF fuel cs

/-- `extractNumbers` of both `ConsensusEngine` and `OutlierIsolator`:
`text.match(/\d+\.?\d*/g)` mapped through `parseFloat` (empty list when
there is no match). -/
def extractNumbers (s : String) : List ℚ :=
  scanNumbersF s.data.length s.data

/-- A scanner given no digits finds no numbers. -/
theorem scanNumbersF_no_digits (fuel : ℕ) (l : List Char)
    (h : ∀ c ∈ l, ¬ isDigitCh c) : scanNumbersF fuel l = [] := by
  induction fuel generalizing l with
  | zero => rfl
  | succ n ih =>
    cases l with
    | nil => rfl
    | cons c cs =>
      have hc : ¬ isDigitCh c := h c (List.mem_cons_self c cs)
      simp only [scanNumbersF, hc, if_neg, Bool.false_eq_true, if_false]
      exact ih cs (fun d hd => h d (List.mem_cons_of_mem c hd))

/-- A text with no digit characters yields no numeric tokens. -/
theorem extractNumbers_no_digits (s : String)
    (h : ∀ c ∈ s.data, ¬ isDigitCh c) : extractNumbers s = [] :=
  scanNumbersF_no_digits _ _ h

/-! ## ConsensusEngine (`ConsensusEngine.ts`) -/

/-- The `ModelResponse` interface local to `ConsensusEngine.ts`
(`model`, `text`; the optional `confidence` field is never read by the
engine). -/
structure MResponse where
  model : String
  text : String
deriving DecidableEq, Repr

/-- `normalizeClaim`: lower-case, strip every character outside `[\w\s]`,
trim. -/
def normalizeClaim (l : List Char) : List Char :=
  trimStr ((lowerStr l).filter (fun c => isWordCh c || isWs c))

/-- Sentence fragments of a response text: split on `/[.!?]+/`, trim each
piece, keep those of length `> 10`. -/
def sentencesOf (text : String) : List (List Char) :=
  ((jsSplit (fun c => c = '.' || c = '!' || c = '?') text.data).map trimStr).filter
    (fun s => s.length > 10)

/-- One claim-map entry: normalized text plus the distinct backends that
mentioned it, in first-mention order. -/
abbrev ClaimEntry := List Char × List String

/-- Record one normalized sentence for `model` in the insertion-ordered
claim map: new keys are appended, a model is appended to an existing key's
list only if not already present. -/
def insertClaim (key : List Char) (model : String) :
    List ClaimEntry → List ClaimEntry
  | [] => [(key, [model])]
  | (k, ms) :: rest =>
    if k = key then
      (k, if model ∈ ms then ms else ms ++ [model]) :: rest
    else (k, ms) :: insertClaim key model rest

/-- Process one response's sentences into the claim map. -/
def insertResponse (m : List ClaimEntry) (r : MResponse) : List ClaimEntry :=
  (sentencesOf r.text).foldl (fun acc s => insertClaim (normalizeClaim s) r.model acc) m

/-- `extractClaims`: the insertion-ordered map from normalized sentence to
the list of distinct backends mentioning it. -/
def extractClaims (responses : List MResponse) : List ClaimEntry :=
  responses.foldl insertResponse []

/-- One consensus item (`value`, `confidence = count/N`, counts, models). -/
structure ConsensusItem where
  value : List Char
  confidence : ℚ
  agreementCount : ℕ
  totalModels : ℕ
  models : List String
deriving DecidableEq, Repr

/-- The `Consensus` result. -/
structure Consensus where
  items : List ConsensusItem
  threshold : ℕ
  totalResponses : ℕ
deriving DecidableEq, Repr

/-- `calculateConsensus`: throws on an empty response list, otherwise keeps
the claims mentioned by at least `ceil(N/2)` distinct backends. -/
def calculateConsensus (responses : List MResponse) : Except String Consensus :=
  if responses.length = 0 then
    .error "Cannot calculate consensus from zero responses"
  else
    let allClaims := extractClaims responses
    let threshold := (responses.length + 1) / 2
    let consensusClaims := allClaims.filter (fun c => c.2.length ≥ threshold)
    .ok
      { items := consensusClaims.map (fun c =>
          { value := c.1
            confidence := (c.2.length : ℚ) / (responses.length : ℚ)
            agreementCount := c.2.length
            totalModels := responses.length
            models := c.2 })
        threshold := threshold
        totalResponses := responses.length }

/-- A unique (single-source) claim. -/
structure UniqueClaim where
  text : List Char
  model : String
deriving DecidableEq, Repr

/-- A minority (disagreement) claim. -/
structure Disagreement where
  text : List Char
  models : List String
  count : ℕ
deriving DecidableEq, Repr

/-- A contradiction entry (`model1`, `model2` plus 100-char text prefixes). -/
structure Contradiction where
  model1 : String
  model2 : String
  text1 : List Char
  text2 : List Char
deriving DecidableEq, Repr

inductive VarLevel | low | medium | high
deriving DecidableEq, Repr

/-- The `Variance` result. -/
structure Variance where
  level : VarLevel
  disagreements : List Disagreement
  unique : List UniqueClaim
  contradictions : List Contradiction
  score : ℕ
deriving DecidableEq, Repr

/-- `findContradictions`: a pair of responses is a contradiction iff exactly
one of the two texts contains the substring `"not"`. -/
def findContradictions : List MResponse → List Contradiction
  | [] => []
  | r :: rs =>
    (rs.filterMap (fun s =>
      if containsSub "not".data s.text.data ≠ containsSub "not".data r.text.data then
        some { model1 := r.model, model2 := s.model
               text1 := r.text.data.take 100, text2 := s.text.data.take 100 }
      else none)) ++ findContradictions rs

/-- `analyzeVariance`: singleton claims are unique, claims with
`1 < count < threshold` are disagreements; severity counts disagreements
plus contradictions. -/
def analyzeVariance (responses : List MResponse) (consensus : Consensus) : Variance :=
  let allClaims := extractClaims responses
  let uniqueClaims := (allClaims.filter (fun c => c.2.length = 1)).map
    (fun c => { text := c.1, model := c.2.headD "" : UniqueClaim })
  let disagreements := (allClaims.filter
      (fun c => c.2.length > 1 ∧ c.2.length < consensus.threshold)).map
    (fun c => { text := c.1, models := c.2, count := c.2.length : Disagreement })
  let contradictions := findContradictions responses
  let varianceScore := disagreements.length + contradictions.length
  { level := if varianceScore = 0 then .low else if varianceScore ≤ 2 then .medium else .high
    disagreements := disagreements
    unique := uniqueClaims
    contradictions := contradictions
    score := varianceScore }

/-! ## OutlierIsolator (`OutlierIsolator.ts`) -/

/-- The `TextGenResult` fields read by the research pipeline under
verification (`model`, `text`); the remaining fields of the interface
(`usage`, `provider`, `costEstimate`, `toolCalls`) are opaque to all of
the embedded operations. -/
structure TextGenResult where
  model : String
  text : String
deriving DecidableEq, Repr

inductive OutlierType
  | hallucination
  | valuableDissent
  | outdated
  | misunderstoodQuery
deriving DecidableEq, Repr

/-- The `OutlierResult` classification record. -/
structure OutlierResult where
  isOutlier : Bool
  type : Option OutlierType
  confidence : ℚ
  reasoning : String
  recommendation : String
deriving DecidableEq, Repr

structure OutlierEntry where
  model : String
  response : String
  classification : OutlierResult
deriving DecidableEq, Repr

/-- The `OutlierReport` returned by `analyze`. -/
structure OutlierReport where
  totalResponses : ℕ
  outliers : List OutlierEntry
  validResponses : List String
deriving DecidableEq, Repr

namespace OutlierIsolator

/-- `jaccardSimilarity`: `0` when the union is empty, otherwise
`|A ∩ B| / |A ∪ B|`. -/
def jaccardSimilarity (A B : Finset String) : ℚ :=
  if (A ∪ B).card = 0 then 0
  else ((A ∩ B).card : ℚ) / ((A ∪ B).card : ℚ)

/-- The word set of `detectSemanticOutliers`:
`text.toLowerCase().split(/\s+/).filter(w => w.length > 3)` as a JS `Set`. -/
def wordSet (text : String) : Finset String :=
  (((jsSplit isWs (lowerStr text.data)).filter (fun w => w.length > 3)).map
    (fun w => String.mk w)).toFinset

/-- `detectNumericalOutliers`: per response keep the numeric tokens `< 100`;
when at least three responses have such tokens, pool all kept values and flag
a response whose token mean has z-score `> 2.5` against the pooled
mean/standard deviation.

The source compares `|avg − mean| / stdDev > 2.5` with
`stdDev = sqrt variance`; here this is embedded without the square root as
`4·(avg − mean)² > 25·variance`, which is equivalent for `stdDev > 0` and
also agrees with the JS semantics at `stdDev = 0`: there JS yields
`0/0 = NaN` (comparison false) when `avg = mean`, matching `0 > 0`, and
`Infinity` (comparison true) when `avg ≠ mean`, matching
`4·(avg − mean)² > 0`. -/
def detectNumericalOutliers (responses : List TextGenResult) : List String :=
  let numbersByModel := responses.map (fun r => (r.model, extractNumbers r.text))
  let percentages := (numbersByModel.map
      (fun m => (m.1, m.2.filter (fun n => n < 100)))).filter
    (fun m => m.2.length > 0)
  if percentages.length ≥ 3 then
    let allValues := percentages.flatMap (·.2)
    let mean := allValues.sum / (allValues.length : ℚ)
    let variance := (allValues.map (fun v => (v - mean) ^ 2)).sum / (allValues.length : ℚ)
    percentages.filterMap (fun item =>
      let avgValue := item.2.sum / (item.2.length : ℚ)
      if 4 * (avgValue - mean) ^ 2 > 25 * variance then some item.1 else none)
  else []

/-- `detectSemanticOutliers`: flag every response whose average pairwise
Jaccard similarity (word sets, index-distinct pairs) against the others is
below `0.3`.  With a single response the source divides by zero, producing
`NaN`, and `NaN < 0.3` is false, so nothing is flagged; the `≤ 1` guard
reproduces that. -/
def detectSemanticOutliers (responses : List TextGenResult) : List String :=
  let ws := responses.map (fun r => (r.model, wordSet r.text))
  if ws.length ≤ 1 then []
  else
    ws.enum.filterMap (fun p =>
      let total := (ws.enum.filterMap (fun q =>
        if q.1 = p.1 then none else some (jaccardSimilarity p.2.2 q.2.2))).sum
      if total / ((ws.length : ℚ) - 1) < 3 / 10 then some p.2.1 else none)

/-- `classifyOutlier`.  The first branch of the source reads
`if (outlierAvg > consuAvg * 10 || outlierAvg < consensusAvg / 10)`, where
`consuAvg` is declared nowhere in the file; whenever both number lists are
non-empty, evaluating the condition raises a `ReferenceError` (as
TypeScript, the file does not even compile), modelled as `.error`. -/
def classifyOutlier (outlier : TextGenResult) (consensus : List TextGenResult) :
    Except String OutlierResult :=
  let outlierNumbers := extractNumbers outlier.text
  let consensusNumbers := consensus.flatMap (fun r => extractNumbers r.text)
  if outlierNumbers.length > 0 ∧ consensusNumbers.length > 0 then
    .error "ReferenceError: consuAvg is not defined"
  else if hasTemporalLanguage outlier.text then
    .ok { isOutlier := true, type := some .outdated, confidence := 7 / 10
          reasoning := "Response contains temporal language suggesting outdated information"
          recommendation := "NOTE as historical perspective. May have been correct in the past." }
  else
    let consensusWords := (consensus.flatMap
      (fun r => (jsSplit isWs (lowerStr r.text.data)).map (fun w => String.mk w))).toFinset
    let outlierWords := ((jsSplit isWs (lowerStr outlier.text.data)).map
      (fun w => String.mk w)).toFinset
    if jaccardSimilarity consensusWords outlierWords < 1 / 5 then
      .ok { isOutlier := true, type := some .misunderstoodQuery, confidence := 3 / 4
            reasoning := "Response semantically divergent. May have interpreted question differently."
            recommendation := "RE-RUN with clarified prompt. This model answered a related but different question." }
    else
      .ok { isOutlier := true, type := some .valuableDissent, confidence := 3 / 5
            reasoning := "Different perspective but internally consistent"
            recommendation := "INCLUDE as alternative viewpoint. May represent minority perspective." }

/-- The response loop of `analyze`: flagged responses are classified (a
classification error aborts the whole analysis, as a thrown exception
does); unflagged responses are listed as valid. -/
def analyzeLoop (outM : List String) (cons : List TextGenResult) :
    List TextGenResult → Except String (List OutlierEntry × List String)
  | [] => .ok ([], [])
  | r :: rs =>
    if r.model ∈ outM then
      match classifyOutlier r cons with
      | .error e => .error e
      | .ok c =>
        match analyzeLoop outM cons rs with
        | .error e => .error e
        | .ok (os, vs) => .ok (⟨r.model, r.text, c⟩ :: os, vs)
    else
      match analyzeLoop outM cons rs with
      | .error e => .error e
      | .ok (os, vs) => .ok (os, r.model :: vs)

/-- `analyze`: short-circuit below two responses; otherwise flag the union
of the numerical and the semantic pass and classify every flagged response
against the unflagged ones. -/
def analyze (responses : List TextGenResult) : Except String OutlierReport :=
  if responses.length < 2 then
    .ok { totalResponses := responses.length, outliers := []
          validResponses := responses.map (·.model) }
  else
    let numericalOutliers := detectNumericalOutliers responses
    let semanticOutliers := detectSemanticOutliers responses
    let allOutlierModels := numericalOutliers ++ semanticOutliers
    let cons := responses.filter (fun r => r.model ∉ allOutlierModels)
    match analyzeLoop allOutlierModels cons responses with
    | .error e => .error e
    | .ok (os, vs) => .ok { totalResponses := responses.length, outliers := os
                            validResponses := vs }

end OutlierIsolator

/-! ## ResearchEngine (`ResearchEngine.ts`)

The engine's collaborators are passed explicitly: `avail m` models
`providerRegistry.getProviderForModel(m) !== undefined`, `estCost` models
`modelRegistry.estimateCost`, and `gen m` models a `generateText` call on
model `m` (`none` = the call threw). -/

/-- The fields of `ResearchConfig` read by `getWorkflow`. -/
structure ResearchConfig where
  depth : String
  primaryModel : String
  maxCost : Option ℚ
deriving Repr

/-- The resolved `WorkflowConfig`. -/
structure WorkflowConfig where
  models : List String
  passes : ℕ
  validateOutliers : Bool
  tieBreaker : Option String
deriving DecidableEq, Repr

/-- First loop of the y-it `pick` helper: first candidate that is available
and whose projected cost keeps the running total under the budget. -/
def pickFit (avail : String → Bool) (estCost : String → ℕ → ℕ → ℚ)
    (budget cur : ℚ) : List String → Option String
  | [] => none
  | m :: ms =>
    if avail m ∧ cur + estCost m 2000 1000 ≤ budget then some m
    else pickFit avail estCost budget cur ms

/-- Second loop of `pick`: first available candidate of the reversed list
(the budget is ignored; the source's in-place `list.reverse()` has no other
effect because each candidate array is used by exactly one `pick` call). -/
def pickAny (avail : String → Bool) (l : List String) : Option String :=
  l.reverse.find? avail

/-- The y-it `pick` helper. -/
def pick (avail : String → Bool) (estCost : String → ℕ → ℕ → ℚ)
    (budget cur : ℚ) (l : List String) (fallback : String) : String :=
  match pickFit avail estCost budget cur l with
  | some m => m
  | none =>
    match pickAny avail l with
    | some m => m
    | none => fallback

/-- The y-it candidate lists. -/
def yItCandidatesInvA : List String :=
  ["gemini-2.5-flash", "gpt-4o-mini", "claude-3.5-haiku"]
def yItCandidatesInvB : List String :=
  ["llama-3.3-70b-versatile", "llama-3.1-70b-versatile", "mixtral-8x7b-32768", "gpt-4o"]
def yItCandidatesGap : List String :=
  ["gemini-3.0-pro", "gemini-2.5-pro", "gpt-4o", "deepseek-chat", "gemini-2.5-flash"]
def yItCandidatesSyn : List String :=
  ["gemini-3.0-pro", "gemini-2.5-pro", "claude-3.5-sonnet", "gpt-4o", "gemini-2.5-flash"]

/-- The preset roster, pass count, outlier-validation flag and tie breaker
chosen by the `switch` of `getWorkflow`, before availability filtering. -/
def presetPlan (avail : String → Bool) (estCost : String → ℕ → ℕ → ℚ)
    (config : ResearchConfig) : List String × ℕ × Bool × Option String :=
  if config.depth = "flash" then (["gemini-2.5-flash-lite"], 1, false, none)
  else if config.depth = "budget" then (["deepseek-chat"], 1, false, none)
  else if config.depth = "quick" then (["gemini-2.5-flash"], 1, false, none)
  else if config.depth = "standard" then
    (["gemini-2.5-flash", "gpt-4o-mini", "claude-3.5-haiku"], 1, true, none)
  else if config.depth = "verified" then
    (["gemini-2.5-flash", "gpt-4o", "claude-sonnet-4", "deepseek-chat"], 1, true,
      some "claude-sonnet-4.5")
  else if config.depth = "deep-dive" then
    (["deepseek-chat", "gemini-2.5-flash", "claude-sonnet-4.5", "gpt-4o",
      "claude-sonnet-4", "gemini-2.5-pro"], 2, true, some "o3")
  else if config.depth = "y-it" then
    let budget := config.maxCost.getD 1
    let primary := config.primaryModel
    let invAId := pick avail estCost budget 0 yItCandidatesInvA primary
    let cost1 := estCost invAId 2000 1000
    let invBId := pick avail estCost budget cost1 yItCandidatesInvB primary
    let cost2 := cost1 + estCost invBId 2000 1000
    let gapId := pick avail estCost budget cost2 yItCandidatesGap primary
    let cost3 := cost2 + estCost gapId 2000 1000
    let synId := pick avail estCost budget cost3 yItCandidatesSyn primary
    ([invAId, invBId, gapId, synId], 2, true, some synId)
  else ([config.primaryModel], 1, false, none)

/-- `getWorkflow`: resolve the preset plan, drop models without an available
provider, fall back to the primary model when that empties the roster, and
keep the tie breaker only when its provider is available. -/
def getWorkflow (avail : String → Bool) (estCost : String → ℕ → ℕ → ℚ)
    (config : ResearchConfig) : WorkflowConfig :=
  let plan := presetPlan avail estCost config
  let availableModels := plan.1.filter avail
  if availableModels.length = 0 then
    { models := [config.primaryModel], passes := 1, validateOutliers := false
      tieBreaker := none }
  else
    { models := availableModels
      passes := plan.2.1
      validateOutliers := plan.2.2.1 && availableModels.length > 1
      tieBreaker := match plan.2.2.2 with
        | some t => if avail t then some t else none
        | none => none }

/-- `executeWorkflow` Pass 1 always runs
`workflow.models.slice(0, workflow.models.length - 1)` — the roster minus
its last entry, whatever `passes` is. -/
def pass1Models (w : WorkflowConfig) : List String :=
  w.models.take (w.models.length - 1)

/-- Sequential Pass-1 branch (`depth === 'y-it'`): skip models without a
provider, drop calls that throw, keep roster order. -/
def sequentialPass1 (avail : String → Bool) (gen : String → Option TextGenResult) :
    List String → List TextGenResult
  | [] => []
  | m :: ms =>
    if avail m then
      match gen m with
      | some r => r :: sequentialPass1 avail gen ms
      | none => sequentialPass1 avail gen ms
    else sequentialPass1 avail gen ms

/-- Parallel Pass-1 branch: each model maps to its result or `null`, then
the nulls are dropped, keeping roster order. -/
def parallelPass1 (avail : String → Bool) (gen : String → Option TextGenResult)
    (ms : List String) : List TextGenResult :=
  (ms.map (fun m => if avail m then gen m else none)).filterMap id

/-- `executeWorkflow`: Pass 1 on the roster minus its last entry, then the
optional synthesis pass.  The synthesizer id is
`workflow.models[length-1] || workflow.models[0]` (for a non-empty roster
of non-empty model ids this is just the last entry). -/
def executeWorkflow (depth : String) (avail : String → Bool)
    (gen : String → Option TextGenResult) (w : WorkflowConfig) : List TextGenResult :=
  let results :=
    if depth = "y-it" then sequentialPass1 avail gen (pass1Models w)
    else parallelPass1 avail gen (pass1Models w)
  if w.passes > 1 ∧ results.length > 0 then
    let synthesizerId := w.models.getD (w.models.length - 1) (w.models.headD "")
    if avail synthesizerId then
      match gen synthesizerId with
      | some r => results ++ [r]
      | none => results
    else results
  else results

/-- The outlier-fallback step of `investigate`: keep the responses whose
model the outlier report lists as valid; if that filter empties the set,
fall back to the full raw response list. -/
def selectValidResponses (responses : List TextGenResult) (validModels : List String) :
    List TextGenResult :=
  let valid := responses.filter (fun r => r.model ∈ validModels)
  if valid.length = 0 then responses else valid

/-- Modelled from the spec: `ConsensusEngine.calculateSystemConfidence` is
invoked by `ResearchEngine.investigate` but its implementation is absent
from the repository sources.  The spec requires a deterministic 0–100
score, monotonic in the consensus agreement ratio and antitone in the
variance severity; following those words, the agreement ratio is clamped
into `[0,1]`, scaled to 0–100, and a capped severity penalty is
subtracted. -/
def calculateSystemConfidence (agreementRatio : ℚ) (severityScore : ℕ) : ℚ :=
  let a := max 0 (min 1 agreementRatio)
  max 0 (a * 100 - 10 * min 5 severityScore)

/-! ## Invariants of the claim map -/

/-- Every entry of the claim map has a non-empty, duplicate-free backend
list drawn from `seen`. -/
def ClaimMapInv (seen : List String) (m : List ClaimEntry) : Prop :=
  ∀ e ∈ m, e.2 ≠ [] ∧ e.2.Nodup ∧ ∀ x ∈ e.2, x ∈ seen

theorem claimMapInv_nil (seen : List String) : ClaimMapInv seen [] := by
  intro e he
  cases he

theorem insertClaim_inv {seen : List String} {m : List ClaimEntry}
    (h : ClaimMapInv seen m) (key : List Char) {model : String}
    (hm : model ∈ seen) : ClaimMapInv seen (insertClaim key model m) := by
  induction m with
  | nil =>
    intro e he
    simp only [insertClaim, List.mem_singleton] at he
    subst he
    simp [hm]
  | cons p rest ih =>
    obtain ⟨k, ms⟩ := p
    have hrest : ClaimMapInv seen rest := fun e he => h e (List.mem_cons_of_mem _ he)
    have hhead := h (k, ms) (List.mem_cons_self _ _)
    intro e he
    simp only [insertClaim] at he
    by_cases hk : k = key
    · rw [if_pos hk] at he
      rcases List.mem_cons.1 he with he | he
      · subst he
        by_cases hmem : model ∈ ms
        · simpa [hmem] using hhead
        · refine ⟨by simp [hmem], ?_, ?_⟩
          · simp only [hmem, if_neg, if_false]
            simp [List.nodup_append, hhead.2.1, List.disjoint_singleton, hmem]
          · intro x hx
            simp only [hmem, if_neg, if_false, List.mem_append, List.mem_singleton] at hx
            rcases hx with hx | hx
            · exact hhead.2.2 x hx
            · subst hx; exact hm
      · exact hrest e he
    · rw [if_neg hk] at he
      rcases List.mem_cons.1 he with he | he
      · subst he; exact hhead
      · exact ih hrest e he

theorem insertResponse_inv {seen : List String} {m : List ClaimEntry}
    (h : ClaimMapInv seen m) {r : MResponse} (hr : r.model ∈ seen) :
    ClaimMapInv seen (insertResponse m r) := by
  unfold insertResponse
  generalize sentencesOf r.text = ss
  induction ss generalizing m with
  | nil => exact h
  | cons s ss ih => exact ih (insertClaim_inv h (normalizeClaim s) hr)

theorem extractClaims_inv (rs : List MResponse) :
    ClaimMapInv (rs.map (·.model)) (extractClaims rs) := by
  unfold extractClaims
  suffices h : ∀ (l : List MResponse) (seen : List String) (m : List ClaimEntry),
      ClaimMapInv seen m → (∀ r ∈ l, r.model ∈ seen) →
      ClaimMapInv seen (l.foldl insertResponse m) by
    exact h rs _ [] (claimMapInv_nil _) (fun r hr => List.mem_map_of_mem _ hr)
  intro l
  induction l with
  | nil => intro seen m hm _; exact hm
  | cons r l ih =>
    intro seen m hm hs
    exact ih seen _ (insertResponse_inv hm (hs r (List.mem_cons_self _ _)))
      (fun x hx => hs x (List.mem_cons_of_mem _ hx))

/-- Each claim's distinct-backend count is bounded by the number of
responses. -/
theorem claim_count_le (rs : List MResponse) (e : ClaimEntry)
    (he : e ∈ extractClaims rs) : e.2.length ≤ rs.length := by
  obtain ⟨_, hnd, hsub⟩ := extractClaims_inv rs e he
  calc e.2.length = e.2.toFinset.card := (List.toFinset_card_of_nodup hnd).symm
    _ ≤ (rs.map (·.model)).toFinset.card := by
        apply Finset.card_le_card
        intro x hx
        exact List.mem_toFinset.2 (hsub x (List.mem_toFinset.1 hx))
    _ ≤ (rs.map (·.model)).length := (rs.map (·.model)).toFinset_card_le
    _ = rs.length := List.length_map _ _

/-- Each claim's backend count is positive. -/
theorem claim_count_pos (rs : List MResponse) (e : ClaimEntry)
    (he : e ∈ extractClaims rs) : 0 < e.2.length := by
  obtain ⟨hne, _, _⟩ := extractClaims_inv rs e he
  exact List.length_pos.2 hne

/-- The consensus value that `investigate` hands to `analyzeVariance`
(`calculateConsensus` succeeds on every non-empty input; the default only
covers the error case). -/
def consensusOf (rs : List MResponse) : Consensus :=
  match calculateConsensus rs with
  | .ok c => c
  | .error _ => { items := [], threshold := 0, totalResponses := 0 }

/-- Three pointwise mutually-exclusive, jointly-exhaustive filters split a
list's length. -/
theorem length_filter_tri {α : Type} (l : List α) (p q r : α → Bool)
    (h : ∀ x ∈ l, (p x ∧ ¬ q x ∧ ¬ r x) ∨ (¬ p x ∧ q x ∧ ¬ r x) ∨
      (¬ p x ∧ ¬ q x ∧ r x)) :
    (l.filter p).length + (l.filter q).length + (l.filter r).length = l.length := by
  induction l with
  | nil => simp
  | cons a l ih =>
    have ha := h a (List.mem_cons_self _ _)
    have ih' := ih (fun x hx => h x (List.mem_cons_of_mem _ hx))
    rcases ha with ⟨h1, h2, h3⟩ | ⟨h1, h2, h3⟩ | ⟨h1, h2, h3⟩ <;>
      simp_all [List.filter_cons] <;> omega

/-! ## Claim theorems -/

/-- **C1** (code bug, failing input): with every provider available, the
`'flash'` preset resolves to the single-backend roster
`['gemini-2.5-flash-lite']` with `passes = 1` (no synthesizer slot), yet
Pass 1 of `executeWorkflow` issues zero generation calls and returns zero
responses even when the backend would succeed: the source always slices off
the roster's last entry (`slice(0, length - 1)`), not only the
`passCount == 2` synthesizer, so a K-backend single-pass roster yields
K − 1 Pass-1 calls instead of the claimed K. -/
theorem c1_flash_pass1_zero_calls :
    getWorkflow (fun _ => true) (fun _ _ _ => 0)
        { depth := "flash", primaryModel := "gemini-2.5-flash", maxCost := none } =
      { models := ["gemini-2.5-flash-lite"], passes := 1, validateOutliers := false
        tieBreaker := none } ∧
    pass1Models
      { models := ["gemini-2.5-flash-lite"], passes := 1, validateOutliers := false
        tieBreaker := none } = [] ∧
    executeWorkflow "flash" (fun _ => true) (fun m => some ⟨m, "generated text"⟩)
      { models := ["gemini-2.5-flash-lite"], passes := 1, validateOutliers := false
        tieBreaker := none } = [] := by
  refine ⟨by decide, rfl, rfl⟩

/-- **C2** (spec-modelled): the system confidence score is always within
`[0, 100]`, is monotone in the agreement ratio and antitone in the variance
severity score; determinism is function application (equal inputs give the
same term). -/
theorem c2_system_confidence_spec (a a' : ℚ) (s s' : ℕ)
    (hag : a ≤ a') (hs : s ≤ s') :
    (0 ≤ calculateSystemConfidence a s ∧ calculateSystemConfidence a s ≤ 100) ∧
    calculateSystemConfidence a s ≤ calculateSystemConfidence a' s ∧
    calculateSystemConfidence a s' ≤ calculateSystemConfidence a s := by
  unfold calculateSystemConfidence
  refine ⟨⟨le_max_left 0 _, ?_⟩, ?_, ?_⟩
  · apply max_le (by norm_num)
    have h1 : max 0 (min 1 a) ≤ 1 := max_le (by norm_num) (min_le_left _ _)
    have h2 : (0:ℚ) ≤ 10 * min 5 s := by positivity
    nlinarith
  · have h1 : max 0 (min 1 a) ≤ max 0 (min 1 a') :=
      max_le_max le_rfl (min_le_min le_rfl hag)
    apply max_le_max le_rfl
    have := mul_le_mul_of_nonneg_right h1 (by norm_num : (0:ℚ) ≤ 100)
    linarith
  · apply max_le_max le_rfl
    have h1 : ((min 5 s : ℕ) : ℚ) ≤ ((min 5 s' : ℕ) : ℚ) :=
      Nat.cast_le.2 (min_le_min le_rfl hs)
    linarith

theorem c2_system_confidence_spec_witness :
    (0 ≤ calculateSystemConfidence 0 0 ∧ calculateSystemConfidence 0 0 ≤ 100) ∧
    calculateSystemConfidence 0 0 ≤ calculateSystemConfidence 1 0 ∧
    calculateSystemConfidence 0 3 ≤ calculateSystemConfidence 0 0 :=
  c2_system_confidence_spec 0 1 0 3 zero_le_one (by decide)

/-- **C3** (counterexample): roster `[modelA, modelB, modelC]`, all of
`modelA, modelB, modelC, modelD` available, `modelA`'s call fails.  The
claim predicts one automatic substitution — `modelD` (available, outside
the roster) retried once, so two Pass-1 responses.  The code returns only
`modelB`'s response: the failed slot is dropped with no classification,
substitution or retry. -/
theorem c3_substitution_counterexample :
    parallelPass1 (fun m => m ∈ ["modelA", "modelB", "modelC", "modelD"])
      (fun m => if m = "modelA" then none else some ⟨m, "generated text"⟩)
      (pass1Models
        { models := ["modelA", "modelB", "modelC"], passes := 1
          validateOutliers := false, tieBreaker := none }) =
      [⟨"modelB", "generated text"⟩] := by decide

/-- **C3** (amended): a failed or provider-less Pass-1 slot is simply
dropped — under both dispatch strategies the Pass-1 output is exactly the
successful calls of the roster models in roster order, and (for a
well-formed generator) every returned response comes from a roster model:
no backend outside the roster is ever substituted in. -/
theorem c3_slots_dropped_without_substitution (avail : String → Bool)
    (gen : String → Option TextGenResult) (ms : List String)
    (hgen : ∀ m r, gen m = some r → r.model = m) :
    sequentialPass1 avail gen ms =
      ms.filterMap (fun m => if avail m then gen m else none) ∧
    parallelPass1 avail gen ms =
      ms.filterMap (fun m => if avail m then gen m else none) ∧
    ∀ r ∈ parallelPass1 avail gen ms, r.model ∈ ms := by
  have hseq : sequentialPass1 avail gen ms =
      ms.filterMap (fun m => if avail m then gen m else none) := by
    induction ms with
    | nil => rfl
    | cons m ms ih =>
      simp only [sequentialPass1, List.filterMap_cons]
      by_cases ha : avail m
      · simp only [ha, if_true]
        cases hg : gen m with
        | none => simpa [hg] using ih
        | some r => simpa [hg] using ih
      · simpa [ha] using ih
  have hpar : parallelPass1 avail gen ms =
      ms.filterMap (fun m => if avail m then gen m else none) := by
    simp [parallelPass1, List.filterMap_map]
  refine ⟨hseq, hpar, ?_⟩
  intro r hr
  rw [hpar] at hr
  obtain ⟨m, hm, hr⟩ := List.mem_filterMap.1 hr
  by_cases ha : avail m
  · rw [if_pos ha] at hr
    have := hgen m r hr
    simpa [this] using hm
  · simp [ha] at hr

theorem c3_slots_dropped_without_substitution_witness :
    sequentialPass1 (fun _ => true) (fun m => some ⟨m, "t"⟩) ["a", "b"] =
      ["a", "b"].filterMap (fun m => if (fun _ => true) m then some ⟨m, "t"⟩ else none) ∧
    parallelPass1 (fun _ => true) (fun m => some ⟨m, "t"⟩) ["a", "b"] =
      ["a", "b"].filterMap (fun m => if (fun _ => true) m then some ⟨m, "t"⟩ else none) ∧
    ∀ r ∈ parallelPass1 (fun _ => true) (fun m => some ⟨m, "t"⟩) ["a", "b"],
      r.model ∈ ["a", "b"] :=
  c3_slots_dropped_without_substitution (fun _ => true) (fun m => some ⟨m, "t"⟩)
    ["a", "b"] (fun m r h => by cases h; rfl)

/-- **C5** (code bug, failing input): a flagged response whose text carries
the numeric token 1000 classified against a valid set carrying the token
10 satisfies the claim's ≥10× condition, but instead of returning the
`hallucination` classification (confidence 0.9, exclusion recommendation)
the code evaluates `outlierAvg > consuAvg * 10` where `consuAvg` is
declared nowhere — a `ReferenceError` at run time (and a compile error for
`tsc`): the branch can never produce its classification. -/
theorem c5_hallucination_branch_reference_error :
    OutlierIsolator.classifyOutlier ⟨"outlier-model", "1000"⟩
      [⟨"valid-model", "10"⟩] = .error "ReferenceError: consuAvg is not defined" := rfl

/-- **C9** (confirmed): whenever dispatch produced at least one response,
the response set handed to consensus is non-empty — if the outlier
report's valid-model list keeps no response, the engine falls back to the
full raw response list, and otherwise it uses exactly the kept ones. -/
theorem c9_outlier_fallback_nonempty (rs : List TextGenResult)
    (vm : List String) (hne : rs ≠ []) :
    selectValidResponses rs vm ≠ [] ∧
    (rs.filter (fun r => r.model ∈ vm) = [] → selectValidResponses rs vm = rs) ∧
    (rs.filter (fun r => r.model ∈ vm) ≠ [] →
      selectValidResponses rs vm = rs.filter (fun r => r.model ∈ vm)) := by
  unfold selectValidResponses
  refine ⟨?_, ?_, ?_⟩
  · by_cases h : (rs.filter (fun r => r.model ∈ vm)).length = 0
    · simpa [h] using hne
    · simp only [h, if_false]
      intro hc
      exact h (by simp [hc])
  · intro h
    simp [h]
  · intro h
    have : (rs.filter (fun r => r.model ∈ vm)).length ≠ 0 := by
      simpa [List.length_eq_zero] using h
    simp [this]

/-- **C8** (confirmed): `calculateConsensus` errors exactly on the empty
response list; on success the threshold is `ceil(N/2)`, an extracted claim
has a consensus item (matched by value and backend list) iff its
distinct-backend count meets the threshold, and every item's agreeing
count lies in `(0, N]` with confidence `count / N ∈ (0, 1]`. -/
theorem c8_calculate_consensus_spec (rs : List MResponse) :
    (calculateConsensus rs = .error "Cannot calculate consensus from zero responses" ↔
      rs = []) ∧
    ∀ c, calculateConsensus rs = .ok c →
      c.threshold = (rs.length + 1) / 2 ∧
      c.totalResponses = rs.length ∧
      (∀ cl ∈ extractClaims rs,
        ((∃ it ∈ c.items, it.value = cl.1 ∧ it.models = cl.2) ↔
          c.threshold ≤ cl.2.length)) ∧
      ∀ it ∈ c.items,
        0 < it.agreementCount ∧ it.agreementCount ≤ rs.length ∧
        it.confidence = (it.agreementCount : ℚ) / (rs.length : ℚ) ∧
        0 < it.confidence ∧ it.confidence ≤ 1 := by
  constructor
  · unfold calculateConsensus
    rcases rs with _ | ⟨r, rs⟩
    · simp
    · simp
  · intro c hc
    have hne : rs.length ≠ 0 := by
      intro h0
      unfold calculateConsensus at hc
      rw [if_pos h0] at hc
      cases hc
    unfold calculateConsensus at hc
    rw [if_neg hne] at hc
    injection hc with hc
    subst hc
    refine ⟨rfl, rfl, ?_, ?_⟩
    · intro cl hcl
      constructor
      · rintro ⟨it, hit, hval, hmod⟩
        obtain ⟨cl', hcl', hmk⟩ := List.mem_map.1 hit
        have hlen := (List.mem_filter.1 hcl').2
        have : it.models = cl'.2 := by rw [← hmk]
        rw [hmod] at this
        have hle : (rs.length + 1) / 2 ≤ cl'.2.length := by
          simpa using of_decide_eq_true hlen
        simpa [← this] using hle
      · intro hle
        refine ⟨_, List.mem_map.2 ⟨cl, List.mem_filter.2 ⟨hcl, ?_⟩, rfl⟩, rfl, rfl⟩
        simpa using hle
    · intro it hit
      obtain ⟨cl, hcl, hmk⟩ := List.mem_map.1 hit
      have hclm : cl ∈ extractClaims rs := (List.mem_filter.1 hcl).1
      have hthr : (rs.length + 1) / 2 ≤ cl.2.length := by
        simpa using of_decide_eq_true (List.mem_filter.1 hcl).2
      have hpos : 0 < cl.2.length := claim_count_pos rs cl hclm
      have hle : cl.2.length ≤ rs.length := claim_count_le rs cl hclm
      have hcnt : it.agreementCount = cl.2.length := by rw [← hmk]
      have hconf : it.confidence = (cl.2.length : ℚ) / (rs.length : ℚ) := by rw [← hmk]
      have hNpos : 0 < rs.length := Nat.pos_of_ne_zero hne
      refine ⟨by omega, by omega, by rw [hconf, hcnt], ?_, ?_⟩
      · rw [hconf]
        apply div_pos
        · exact_mod_cast hpos
        · exact_mod_cast hNpos
      · rw [hconf]
        apply div_le_one_of_le₀
        · exact_mod_cast hle
        · positivity

/-- Two identical ten-plus-character responses from two backends. -/
def c8Example : List MResponse :=
  [⟨"backend-a", "the quick brown fox jumps"⟩, ⟨"backend-b", "the quick brown fox jumps"⟩]

theorem c8_calculate_consensus_spec_witness :
    (consensusOf c8Example).threshold = (c8Example.length + 1) / 2 ∧
    (consensusOf c8Example).totalResponses = c8Example.length ∧
    (∀ cl ∈ extractClaims c8Example,
      ((∃ it ∈ (consensusOf c8Example).items, it.value = cl.1 ∧ it.models = cl.2) ↔
        (consensusOf c8Example).threshold ≤ cl.2.length)) ∧
    ∀ it ∈ (consensusOf c8Example).items,
      0 < it.agreementCount ∧ it.agreementCount ≤ c8Example.length ∧
      it.confidence = (it.agreementCount : ℚ) / (c8Example.length : ℚ) ∧
      0 < it.confidence ∧ it.confidence ≤ 1 :=
  (c8_calculate_consensus_spec c8Example).2 (consensusOf c8Example) rfl

/-- **C4** (counterexample): for the single response
`⟨m1, "the sky is blue today"⟩` there is exactly one extracted claim, the
threshold is `ceil(1/2) = 1`, and the claim lands **both** in the
consensus items and in the variance's unique list — the three sets do not
partition the claim set for a non-empty response set, because for `N ≤ 2`
the threshold is `1` and a singleton claim is simultaneously unique and
consensus. -/
theorem c4_partition_counterexample :
    (extractClaims [⟨"m1", "the sky is blue today"⟩]).length = 1 ∧
    (consensusOf [⟨"m1", "the sky is blue today"⟩]).items.map (·.value) =
      ["the sky is blue today".data] ∧
    (analyzeVariance [⟨"m1", "the sky is blue today"⟩]
        (consensusOf [⟨"m1", "the sky is blue today"⟩])).unique.map (·.text) =
      ["the sky is blue today".data] := by
  refine ⟨by decide, by decide, by decide⟩

/-- **C4** (amended): for response sets of size at least 3 (threshold at
least 2) the partition holds: each extracted claim satisfies exactly one
of "singleton", "minority" (`1 < count < threshold`) and "consensus"
(`count ≥ threshold`), and the unique, disagreement and consensus-item
counts sum to the number of distinct extracted claims.  (For `N ≤ 2` the
threshold is 1 and singleton claims are counted both as unique and as
consensus, as the counterexample shows.) -/
theorem c4_partition_of_three_plus (rs : List MResponse) (h3 : 3 ≤ rs.length) :
    (∀ cl ∈ extractClaims rs,
      (cl.2.length = 1 ∧
        ¬(1 < cl.2.length ∧ cl.2.length < (consensusOf rs).threshold) ∧
        ¬((consensusOf rs).threshold ≤ cl.2.length)) ∨
      (cl.2.length ≠ 1 ∧
        (1 < cl.2.length ∧ cl.2.length < (consensusOf rs).threshold) ∧
        ¬((consensusOf rs).threshold ≤ cl.2.length)) ∨
      (cl.2.length ≠ 1 ∧
        ¬(1 < cl.2.length ∧ cl.2.length < (consensusOf rs).threshold) ∧
        (consensusOf rs).threshold ≤ cl.2.length)) ∧
    (analyzeVariance rs (consensusOf rs)).unique.length +
      (analyzeVariance rs (consensusOf rs)).disagreements.length +
      (consensusOf rs).items.length = (extractClaims rs).length := by
  have hne : rs.length ≠ 0 := by omega
  have hok : calculateConsensus rs =
      .ok { items := ((extractClaims rs).filter
              (fun c => decide ((rs.length + 1) / 2 ≤ c.2.length))).map (fun c =>
                { value := c.1
                  confidence := (c.2.length : ℚ) / (rs.length : ℚ)
                  agreementCount := c.2.length
                  totalModels := rs.length
                  models := c.2 })
            threshold := (rs.length + 1) / 2
            totalResponses := rs.length } := by
    unfold calculateConsensus
    rw [if_neg hne]
  have hcons : consensusOf rs =
      { items := ((extractClaims rs).filter
          (fun c => decide ((rs.length + 1) / 2 ≤ c.2.length))).map (fun c =>
            { value := c.1
              confidence := (c.2.length : ℚ) / (rs.length : ℚ)
              agreementCount := c.2.length
              totalModels := rs.length
              models := c.2 })
        threshold := (rs.length + 1) / 2
        totalResponses := rs.length } := by
    unfold consensusOf
    rw [hok]
  have hthr : (consensusOf rs).threshold = (rs.length + 1) / 2 := by rw [hcons]
  have ht2 : 2 ≤ (consensusOf rs).threshold := by rw [hthr]; omega
  have tri : ∀ cl ∈ extractClaims rs,
      (cl.2.length = 1 ∧
        ¬(1 < cl.2.length ∧ cl.2.length < (consensusOf rs).threshold) ∧
        ¬((consensusOf rs).threshold ≤ cl.2.length)) ∨
      (cl.2.length ≠ 1 ∧
        (1 < cl.2.length ∧ cl.2.length < (consensusOf rs).threshold) ∧
        ¬((consensusOf rs).threshold ≤ cl.2.length)) ∨
      (cl.2.length ≠ 1 ∧
        ¬(1 < cl.2.length ∧ cl.2.length < (consensusOf rs).threshold) ∧
        (consensusOf rs).threshold ≤ cl.2.length) := by
    intro cl hcl
    have hpos : 0 < cl.2.length := claim_count_pos rs cl hcl
    omega
  refine ⟨tri, ?_⟩
  have hitems : (consensusOf rs).items.length =
      ((extractClaims rs).filter
        (fun c => decide ((consensusOf rs).threshold ≤ c.2.length))).length := by
    conv_lhs => rw [hcons]
    rw [List.length_map, hthr]
  have huniq : (analyzeVariance rs (consensusOf rs)).unique.length =
      ((extractClaims rs).filter (fun c => decide (c.2.length = 1))).length := by
    simp [analyzeVariance]
  have hdis : (analyzeVariance rs (consensusOf rs)).disagreements.length =
      ((extractClaims rs).filter
        (fun c => decide (1 < c.2.length ∧ c.2.length < (consensusOf rs).threshold))).length := by
    simp [analyzeVariance]
  rw [hitems, huniq, hdis]
  apply length_filter_tri
  intro cl hcl
  have hpos : 0 < cl.2.length := claim_count_pos rs cl hcl
  simp only [decide_eq_true_eq, Bool.not_eq_true, decide_eq_false_iff_not]
  omega

/-- Three responses, two agreeing sentences and one singleton claim. -/
def c4Example : List MResponse :=
  [⟨"backend-a", "grass is green there"⟩, ⟨"backend-b", "grass is green there"⟩,
   ⟨"backend-c", "water is wet here"⟩]

theorem c4_partition_of_three_plus_witness :
    (∀ cl ∈ extractClaims c4Example,
      (cl.2.length = 1 ∧
        ¬(1 < cl.2.length ∧ cl.2.length < (consensusOf c4Example).threshold) ∧
        ¬((consensusOf c4Example).threshold ≤ cl.2.length)) ∨
      (cl.2.length ≠ 1 ∧
        (1 < cl.2.length ∧ cl.2.length < (consensusOf c4Example).threshold) ∧
        ¬((consensusOf c4Example).threshold ≤ cl.2.length)) ∨
      (cl.2.length ≠ 1 ∧
        ¬(1 < cl.2.length ∧ cl.2.length < (consensusOf c4Example).threshold) ∧
        (consensusOf c4Example).threshold ≤ cl.2.length)) ∧
    (analyzeVariance c4Example (consensusOf c4Example)).unique.length +
      (analyzeVariance c4Example (consensusOf c4Example)).disagreements.length +
      (consensusOf c4Example).items.length = (extractClaims c4Example).length :=
  c4_partition_of_three_plus c4Example (by decide)

theorem c9_outlier_fallback_nonempty_witness :
    selectValidResponses [⟨"m", "t"⟩] [] ≠ [] ∧
    (([⟨"m", "t"⟩] : List TextGenResult).filter (fun r => r.model ∈ ([] : List String)) = [] →
      selectValidResponses [⟨"m", "t"⟩] [] = [⟨"m", "t"⟩]) ∧
    (([⟨"m", "t"⟩] : List TextGenResult).filter (fun r => r.model ∈ ([] : List String)) ≠ [] →
      selectValidResponses [⟨"m", "t"⟩] [] =
        ([⟨"m", "t"⟩] : List TextGenResult).filter (fun r => r.model ∈ ([] : List String))) :=
  c9_outlier_fallback_nonempty [⟨"m", "t"⟩] [] (by decide)

/-- On success, the `analyze` loop lists exactly the flagged responses (in
order) as outliers and exactly the unflagged ones as valid. -/
theorem analyzeLoop_ok (outM : List String) (cons : List TextGenResult) :
    ∀ (rs : List TextGenResult) (os : List OutlierEntry) (vs : List String),
      OutlierIsolator.analyzeLoop outM cons rs = .ok (os, vs) →
      os.map (·.model) =
        (rs.filter (fun r => decide (r.model ∈ outM))).map (·.model) ∧
      vs = (rs.filter (fun r => !decide (r.model ∈ outM))).map (·.model) := by
  intro rs
  induction rs with
  | nil =>
    intro os vs h
    simp only [OutlierIsolator.analyzeLoop] at h
    injection h with h
    injection h with h1 h2
    subst h1; subst h2
    simp
  | cons r rs ih =>
    intro os vs h
    simp only [OutlierIsolator.analyzeLoop] at h
    by_cases hm : r.model ∈ outM
    · rw [if_pos hm] at h
      cases hc : OutlierIsolator.classifyOutlier r cons with
      | error e => rw [hc] at h; cases h
      | ok c =>
        rw [hc] at h
        cases hl : OutlierIsolator.analyzeLoop outM cons rs with
        | error e => rw [hl] at h; cases h
        | ok p =>
          obtain ⟨os', vs'⟩ := p
          rw [hl] at h
          injection h with h
          injection h with h1 h2
          subst h1; subst h2
          obtain ⟨ih1, ih2⟩ := ih os' vs' hl
          constructor
          · simp [List.filter_cons, hm, ih1]
          · simp [List.filter_cons, hm, ih2]
    · rw [if_neg hm] at h
      cases hl : OutlierIsolator.analyzeLoop outM cons rs with
      | error e => rw [hl] at h; cases h
      | ok p =>
        obtain ⟨os', vs'⟩ := p
        rw [hl] at h
        injection h with h
        injection h with h1 h2
        subst h1; subst h2
        obtain ⟨ih1, ih2⟩ := ih os' vs' hl
        constructor
        · simp [List.filter_cons, hm, ih1]
        · simp [List.filter_cons, hm, ih2]

/-- **C10** (counterexample): for the three distinct-model responses below,
`analyze` does not return a report at all: the third response is a lexical
outlier, carries the numeric token 5, and the two valid responses carry
numeric tokens, so `classifyOutlier` reaches the
`outlierAvg > consuAvg * 10` comparison and raises the undefined-variable
`ReferenceError`. -/
theorem c10_analyze_error_counterexample :
    OutlierIsolator.analyze
      [⟨"m1", "alpha bravo charlie delta 5"⟩, ⟨"m2", "echo foxtrot golf hotel 7"⟩,
       ⟨"m3", "echo foxtrot golf hotel 8"⟩] =
      .error "ReferenceError: consuAvg is not defined" := by
  have e1 : extractNumbers "alpha bravo charlie delta 5" = [(5:ℚ)] := by
    have h : natOfDigits ['5'] = 5 := by decide
    have h0 : natOfDigits [] = 0 := by decide
    show [ratOfParts ['5'] []] = [(5:ℚ)]
    simp [ratOfParts, h, h0]
  have e2 : extractNumbers "echo foxtrot golf hotel 7" = [(7:ℚ)] := by
    have h : natOfDigits ['7'] = 7 := by decide
    have h0 : natOfDigits [] = 0 := by decide
    show [ratOfParts ['7'] []] = [(7:ℚ)]
    simp [ratOfParts, h, h0]
  have e3 : extractNumbers "echo foxtrot golf hotel 8" = [(8:ℚ)] := by
    have h : natOfDigits ['8'] = 8 := by decide
    have h0 : natOfDigits [] = 0 := by decide
    show [ratOfParts ['8'] []] = [(8:ℚ)]
    simp [ratOfParts, h, h0]
  have w1 : OutlierIsolator.wordSet "alpha bravo charlie delta 5" =
      {"alpha", "bravo", "charlie", "delta"} := by decide
  have w2 : OutlierIsolator.wordSet "echo foxtrot golf hotel 7" =
      {"echo", "foxtrot", "golf", "hotel"} := by decide
  have w3 : OutlierIsolator.wordSet "echo foxtrot golf hotel 8" =
      {"echo", "foxtrot", "golf", "hotel"} := by decide
  have j12 : OutlierIsolator.jaccardSimilarity
      ({"alpha", "bravo", "charlie", "delta"} : Finset String)
      {"echo", "foxtrot", "golf", "hotel"} = 0 := by
    simp [OutlierIsolator.jaccardSimilarity]
  have j21 : OutlierIsolator.jaccardSimilarity
      ({"echo", "foxtrot", "golf", "hotel"} : Finset String)
      {"alpha", "bravo", "charlie", "delta"} = 0 := by
    simp [OutlierIsolator.jaccardSimilarity]
  have j22 : OutlierIsolator.jaccardSimilarity
      ({"echo", "foxtrot", "golf", "hotel"} : Finset String)
      {"echo", "foxtrot", "golf", "hotel"} = 1 := by
    simp [OutlierIsolator.jaccardSimilarity]
  have hnum : OutlierIsolator.detectNumericalOutliers
      [⟨"m1", "alpha bravo charlie delta 5"⟩, ⟨"m2", "echo foxtrot golf hotel 7"⟩,
       ⟨"m3", "echo foxtrot golf hotel 8"⟩] = [] := by
    simp only [OutlierIsolator.detectNumericalOutliers, List.map, e1, e2, e3]
    norm_num [List.filter, List.filterMap, List.flatMap, List.sum]
  have hsem : OutlierIsolator.detectSemanticOutliers
      [⟨"m1", "alpha bravo charlie delta 5"⟩, ⟨"m2", "echo foxtrot golf hotel 7"⟩,
       ⟨"m3", "echo foxtrot golf hotel 8"⟩] = ["m1"] := by
    simp only [OutlierIsolator.detectSemanticOutliers, List.map, List.enum, w1, w2, w3]
    norm_num [List.enumFrom, List.filterMap, j12, j21, j22]
  have ht1 : hasTemporalLanguage "alpha bravo charlie delta 5" = false := by decide
  simp only [OutlierIsolator.analyze, hnum, hsem]
  norm_num +decide [List.filter, OutlierIsolator.analyzeLoop,
    OutlierIsolator.classifyOutlier, e1, e2, e3, Function.comp, ht1]

/-- **C10** (amended): whenever `analyze` does return a report, the outlier
entries' models together with the valid-response models are a permutation
of the input models and no model appears in both lists (so for
pairwise-distinct input models each appears in exactly one); for fewer than
2 responses it always returns the no-outlier report listing every input
model as valid.  (As the counterexample shows, `analyze` can instead
propagate the `consuAvg` `ReferenceError`, so "returns a report" is a
genuine hypothesis.) -/
theorem c10_analyze_report_partition (rs : List TextGenResult)
    (rep : OutlierReport) (hok : OutlierIsolator.analyze rs = .ok rep) :
    (rep.outliers.map (·.model) ++ rep.validResponses).Perm (rs.map (·.model)) ∧
    (∀ m, ¬(m ∈ rep.outliers.map (·.model) ∧ m ∈ rep.validResponses)) ∧
    (rs.length < 2 → rep.outliers = [] ∧ rep.validResponses = rs.map (·.model)) := by
  unfold OutlierIsolator.analyze at hok
  by_cases h2 : rs.length < 2
  · rw [if_pos h2] at hok
    injection hok with hok
    subst hok
    exact ⟨by simp, by simp, fun _ => ⟨rfl, rfl⟩⟩
  · rw [if_neg h2] at hok
    dsimp only at hok
    set outM := OutlierIsolator.detectNumericalOutliers rs ++
      OutlierIsolator.detectSemanticOutliers rs with houtM
    cases hl : OutlierIsolator.analyzeLoop outM
        (rs.filter (fun r => r.model ∉ outM)) rs with
    | error e => rw [hl] at hok; cases hok
    | ok p =>
      obtain ⟨os, vs⟩ := p
      rw [hl] at hok
      injection hok with hok
      subst hok
      obtain ⟨h1, hv⟩ := analyzeLoop_ok outM (rs.filter (fun r => r.model ∉ outM))
        rs os vs hl
      refine ⟨?_, ?_, ?_⟩
      · rw [h1, hv, ← List.map_append]
        exact (List.filter_append_perm _ rs).map (·.model)
      · rintro m ⟨hmo, hmv⟩
        rw [h1] at hmo
        rw [hv] at hmv
        obtain ⟨r, hr, hrm⟩ := List.mem_map.1 hmo
        obtain ⟨r', hr', hrm'⟩ := List.mem_map.1 hmv
        have hro : r.model ∈ outM := of_decide_eq_true (List.mem_filter.1 hr).2
        have hrv : ¬(r'.model ∈ outM) := by
          have := (List.mem_filter.1 hr').2
          simpa using this
        rw [hrm] at hro
        rw [hrm'] at hrv
        exact hrv hro
      · intro hlt
        exact absurd hlt h2

theorem c10_analyze_report_partition_witness :
    ((({ totalResponses := 1, outliers := [], validResponses := ["solo"] } :
        OutlierReport).outliers.map (·.model) ++
      ({ totalResponses := 1, outliers := [], validResponses := ["solo"] } :
        OutlierReport).validResponses).Perm
      (([⟨"solo", "only response"⟩] : List TextGenResult).map (·.model))) ∧
    (∀ m, ¬(m ∈ ({ totalResponses := 1, outliers := [], validResponses := ["solo"] } :
        OutlierReport).outliers.map (·.model) ∧
      m ∈ ({ totalResponses := 1, outliers := [], validResponses := ["solo"] } :
        OutlierReport).validResponses)) ∧
    (([⟨"solo", "only response"⟩] : List TextGenResult).length < 2 →
      ({ totalResponses := 1, outliers := [], validResponses := ["solo"] } :
        OutlierReport).outliers = [] ∧
      ({ totalResponses := 1, outliers := [], validResponses := ["solo"] } :
        OutlierReport).validResponses =
        ([⟨"solo", "only response"⟩] : List TextGenResult).map (·.model)) :=
  c10_analyze_report_partition [⟨"solo", "only response"⟩]
    { totalResponses := 1, outliers := [], validResponses := ["solo"] } rfl

/-- The spec's four-response numeric example: tokens 15, 18, 17, 60, all in
percentage range. -/
def numericExample : List TextGenResult :=
  [⟨"m1", "15"⟩, ⟨"m2", "18"⟩, ⟨"m3", "17"⟩, ⟨"m4", "60"⟩]

/-- **C6** (counterexample): on the spec's own example the numerical pass
flags nothing at all — the pooled mean is 27.5, the population variance
1413/4, and the z-score of the 60-response is 32.5/√353.25 ≈ 1.73, not
above 2.5 (with four pooled values no z-score can exceed √3), so the claim
that exactly the 60-response is flagged fails. -/
theorem c6_numeric_example_counterexample :
    OutlierIsolator.detectNumericalOutliers numericExample = [] := by
  have h15 : extractNumbers "15" = [(15:ℚ)] := by
    have h : natOfDigits ['1', '5'] = 15 := by decide
    have h0 : natOfDigits [] = 0 := by decide
    show [ratOfParts ['1', '5'] []] = [(15:ℚ)]
    simp [ratOfParts, h, h0]
  have h18 : extractNumbers "18" = [(18:ℚ)] := by
    have h : natOfDigits ['1', '8'] = 18 := by decide
    have h0 : natOfDigits [] = 0 := by decide
    show [ratOfParts ['1', '8'] []] = [(18:ℚ)]
    simp [ratOfParts, h, h0]
  have h17 : extractNumbers "17" = [(17:ℚ)] := by
    have h : natOfDigits ['1', '7'] = 17 := by decide
    have h0 : natOfDigits [] = 0 := by decide
    show [ratOfParts ['1', '7'] []] = [(17:ℚ)]
    simp [ratOfParts, h, h0]
  have h60 : extractNumbers "60" = [(60:ℚ)] := by
    have h : natOfDigits ['6', '0'] = 60 := by decide
    have h0 : natOfDigits [] = 0 := by decide
    show [ratOfParts ['6', '0'] []] = [(60:ℚ)]
    simp [ratOfParts, h, h0]
  simp only [numericExample, OutlierIsolator.detectNumericalOutliers, List.map,
    h15, h18, h17, h60]
  norm_num [List.filter, List.filterMap, List.flatMap, List.sum]

/-- **C6** (amended): on the spec's example each response contributes its
single percentage-range token, the embedded z-test for the 60-response
fails (`4·(60 − 27.5)² = 4225 ≤ 8831.25 = 25·(1413/4)`, i.e. z ≈ 1.73 ≤
2.5), and the numerical pass flags no response, so all four remain valid
for that pass. -/
theorem c6_numeric_example_z_below_threshold :
    numericExample.map (fun r => (extractNumbers r.text).filter (fun n => n < 100)) =
      [[15], [18], [17], [60]] ∧
    4 * ((60:ℚ) - ([15, 18, 17, 60] : List ℚ).sum / 4) ^ 2 ≤
      25 * ((([15, 18, 17, 60] : List ℚ).map
        (fun v => (v - ([15, 18, 17, 60] : List ℚ).sum / 4) ^ 2)).sum / 4) ∧
    OutlierIsolator.detectNumericalOutliers numericExample = [] := by
  have h15 : extractNumbers "15" = [(15:ℚ)] := by
    have h : natOfDigits ['1', '5'] = 15 := by decide
    have h0 : natOfDigits [] = 0 := by decide
    show [ratOfParts ['1', '5'] []] = [(15:ℚ)]
    simp [ratOfParts, h, h0]
  have h18 : extractNumbers "18" = [(18:ℚ)] := by
    have h : natOfDigits ['1', '8'] = 18 := by decide
    have h0 : natOfDigits [] = 0 := by decide
    show [ratOfParts ['1', '8'] []] = [(18:ℚ)]
    simp [ratOfParts, h, h0]
  have h17 : extractNumbers "17" = [(17:ℚ)] := by
    have h : natOfDigits ['1', '7'] = 17 := by decide
    have h0 : natOfDigits [] = 0 := by decide
    show [ratOfParts ['1', '7'] []] = [(17:ℚ)]
    simp [ratOfParts, h, h0]
  have h60 : extractNumbers "60" = [(60:ℚ)] := by
    have h : natOfDigits ['6', '0'] = 60 := by decide
    have h0 : natOfDigits [] = 0 := by decide
    show [ratOfParts ['6', '0'] []] = [(60:ℚ)]
    simp [ratOfParts, h, h0]
  refine ⟨?_, ?_, ?_⟩
  · simp only [numericExample, List.map, h15, h18, h17, h60]
    norm_num [List.filter]
  · norm_num [List.sum, List.map]
  · simp only [numericExample, OutlierIsolator.detectNumericalOutliers, List.map,
      h15, h18, h17, h60]
    norm_num [List.filter, List.filterMap, List.flatMap, List.sum]

/-- Jaccard similarity of disjoint sets is zero. -/
theorem jaccard_of_disjoint {A B : Finset String} (h : Disjoint A B) :
    OutlierIsolator.jaccardSimilarity A B = 0 := by
  unfold OutlierIsolator.jaccardSimilarity
  have hc : (A ∩ B).card = 0 := by
    rw [Finset.card_eq_zero]
    exact Finset.disjoint_iff_inter_eq_empty.1 h
  split
  · rfl
  · simp [hc]

/-- Jaccard similarity against an empty left set is zero. -/
theorem jaccard_empty_left (B : Finset String) :
    OutlierIsolator.jaccardSimilarity ∅ B = 0 :=
  jaccard_of_disjoint (Finset.disjoint_empty_left B)

/-- The fixed `misunderstood-query` classification record of
`classifyOutlier`. -/
def misunderstoodClassification : OutlierResult :=
  { isOutlier := true, type := some .misunderstoodQuery, confidence := 3 / 4
    reasoning := "Response semantically divergent. May have interpreted question differently."
    recommendation := "RE-RUN with clarified prompt. This model answered a related but different question." }

/-- The numerical pass never has three qualifying responses out of two, so
it never flags anything for a two-response input. -/
theorem detectNumericalOutliers_two (r1 r2 : TextGenResult) :
    OutlierIsolator.detectNumericalOutliers [r1, r2] = [] := by
  unfold OutlierIsolator.detectNumericalOutliers
  dsimp only [List.map]
  rw [if_neg]
  intro h
  have hle := List.length_filter_le (fun m => decide (m.2.length > 0))
    [(r1.model, (extractNumbers r1.text).filter (fun n => decide (n < 100))),
     (r2.model, (extractNumbers r2.text).filter (fun n => decide (n < 100)))]
  simp only [List.length_cons, List.length_nil] at hle
  omega

/-- **C7** (counterexample): two responses with disjoint word vocabularies
and no numeric tokens — the lexical pass flags **both** of them (each has
average Jaccard similarity 0 < 0.3 against the other), not exactly one as
claimed. -/
theorem c7_two_disjoint_counterexample :
    OutlierIsolator.detectSemanticOutliers
      [⟨"m1", "alpha bravo"⟩, ⟨"m2", "delta echo"⟩] = ["m1", "m2"] := by
  have h12 : OutlierIsolator.jaccardSimilarity (OutlierIsolator.wordSet "alpha bravo")
      (OutlierIsolator.wordSet "delta echo") = 0 := by
    have h1 : OutlierIsolator.wordSet "alpha bravo" = {"alpha", "bravo"} := by decide
    have h2 : OutlierIsolator.wordSet "delta echo" = {"delta", "echo"} := by decide
    rw [h1, h2]
    simp [OutlierIsolator.jaccardSimilarity]
  have h21 : OutlierIsolator.jaccardSimilarity (OutlierIsolator.wordSet "delta echo")
      (OutlierIsolator.wordSet "alpha bravo") = 0 := by
    have h1 : OutlierIsolator.wordSet "alpha bravo" = {"alpha", "bravo"} := by decide
    have h2 : OutlierIsolator.wordSet "delta echo" = {"delta", "echo"} := by decide
    rw [h1, h2]
    simp [OutlierIsolator.jaccardSimilarity]
  simp only [OutlierIsolator.detectSemanticOutliers, List.map, List.enum]
  norm_num [List.enumFrom, List.filterMap, h12, h21]

/-- **C7** (amended): for two responses with disjoint (filtered) word
vocabularies, no numeric tokens and no temporal language, the lexical pass
flags **both** responses; `analyze` then classifies each against the empty
valid set, the lexical-overlap rule fires (overlap 0 < 0.2) and both are
classified `misunderstood-query`, leaving no valid responses. -/
theorem c7_two_disjoint_both_flagged (r1 r2 : TextGenResult)
    (hdisj : Disjoint (OutlierIsolator.wordSet r1.text) (OutlierIsolator.wordSet r2.text))
    (hn1 : extractNumbers r1.text = []) (hn2 : extractNumbers r2.text = [])
    (ht1 : hasTemporalLanguage r1.text = false)
    (ht2 : hasTemporalLanguage r2.text = false) :
    OutlierIsolator.detectSemanticOutliers [r1, r2] = [r1.model, r2.model] ∧
    OutlierIsolator.analyze [r1, r2] =
      .ok { totalResponses := 2
            outliers := [⟨r1.model, r1.text, misunderstoodClassification⟩,
                         ⟨r2.model, r2.text, misunderstoodClassification⟩]
            validResponses := [] } := by
  have hsem : OutlierIsolator.detectSemanticOutliers [r1, r2] = [r1.model, r2.model] := by
    simp only [OutlierIsolator.detectSemanticOutliers, List.map, List.enum]
    norm_num [List.enumFrom, List.filterMap, jaccard_of_disjoint hdisj,
      jaccard_of_disjoint hdisj.symm]
  have hnum : OutlierIsolator.detectNumericalOutliers [r1, r2] = [] :=
    detectNumericalOutliers_two r1 r2
  have hclass : ∀ r : TextGenResult, extractNumbers r.text = [] →
      hasTemporalLanguage r.text = false →
      OutlierIsolator.classifyOutlier r [] = .ok misunderstoodClassification := by
    intro r hn ht
    unfold OutlierIsolator.classifyOutlier
    rw [if_neg (by simp [hn]), if_neg (by simp [ht])]
    rw [if_pos]
    · rfl
    · simp only [List.flatMap_nil, List.toFinset_nil]
      rw [jaccard_empty_left]
      norm_num
  refine ⟨hsem, ?_⟩
  unfold OutlierIsolator.analyze
  rw [if_neg (by simp)]
  dsimp only
  rw [hnum, hsem]
  simp only [List.nil_append]
  have hc1 : r1.model ∈ [r1.model, r2.model] := List.mem_cons_self _ _
  have hc2 : r2.model ∈ [r1.model, r2.model] :=
    List.mem_cons_of_mem _ (List.mem_cons_self _ _)
  have hfilter : ([r1, r2].filter
      (fun r => decide (r.model ∉ [r1.model, r2.model]))) = [] := by
    simp
  rw [hfilter]
  simp only [OutlierIsolator.analyzeLoop, if_pos hc1, if_pos hc2,
    hclass r1 hn1 ht1, hclass r2 hn2 ht2]
  rfl

theorem c7_two_disjoint_both_flagged_witness :
    OutlierIsolator.detectSemanticOutliers
      [(⟨"m1", "alpha bravo"⟩ : TextGenResult), ⟨"m2", "delta echo"⟩] =
      [(⟨"m1", "alpha bravo"⟩ : TextGenResult).model,
       (⟨"m2", "delta echo"⟩ : TextGenResult).model] ∧
    OutlierIsolator.analyze [(⟨"m1", "alpha bravo"⟩ : TextGenResult), ⟨"m2", "delta echo"⟩] =
      .ok { totalResponses := 2
            outliers := [⟨(⟨"m1", "alpha bravo"⟩ : TextGenResult).model,
                          (⟨"m1", "alpha bravo"⟩ : TextGenResult).text,
                          misunderstoodClassification⟩,
                         ⟨(⟨"m2", "delta echo"⟩ : TextGenResult).model,
                          (⟨"m2", "delta echo"⟩ : TextGenResult).text,
                          misunderstoodClassification⟩]
            validResponses := [] } :=
  c7_two_disjoint_both_flagged ⟨"m1", "alpha bravo"⟩ ⟨"m2", "delta echo"⟩
    (by rw [Finset.disjoint_iff_inter_eq_empty]; decide)
    (by decide) (by decide) (by decide) (by decide)

end KnoIt
